import Mathlib

/-!
Verification of the GEO content platform's research/evaluation pipeline.

This file shallowly embeds the data model and the pure control-flow of the
pipeline (research brief construction, brief merging, draft evaluation,
E-E-A-T commentary normalization, draft generation fallback, harvested-text
validation, and the two nested orchestration loops), translated from
`src/geo_content`.  External effects (LLM calls, HTTP) are modelled as
explicit oracle inputs; numbers that Python holds as `int`/`float` are
modelled as `Nat`/`Int`/`Rat` (the only `float` operations that occur are
ratio comparisons against the constants 0.7, 0.1 and 0.05 and `round(x, 2)`,
which are represented exactly over the rationals).
-/

/-- Draft identifier: the `Literal["A", "B"]` tag on drafts and evaluations. -/
inductive DraftId where
  | A
  | B
deriving Repr, DecidableEq

/-- `StatisticItem` from `models/schemas.py`: `verified` defaults to `False`. -/
structure StatisticItem where
  value : String
  context : String
  source : String
  year : Option String := none
  source_url : Option String := none
  verified : Bool := false
  verification_source : Option String := none
deriving Repr, DecidableEq

/-- `QuotationItem` from `models/schemas.py`: `verified` defaults to `False`. -/
structure QuotationItem where
  quote : String
  speaker : String
  title : Option String := none
  source : String
  source_url : Option String := none
  verified : Bool := false
  verification_source : Option String := none
deriving Repr, DecidableEq

/-- `CitationItem` from `models/schemas.py`.  The credibility score (a float
defaulting to 0.8) is kept as a rational. -/
structure CitationItem where
  name : String
  url : Option String := none
  description : String
  credibility_score : ℚ := (8 : ℚ) / 10
deriving Repr, DecidableEq

/-- The `verification_stats` dict written by `ResearchAgent.conduct_research`
(`research_agent.py` lines 403-412). -/
structure VerificationStats where
  total_stats_found : Nat
  verified_stats : Nat
  discarded_stats : Nat
  total_quotes_found : Nat
  verified_quotes : Nat
  discarded_quotes : Nat
  retry_attempts : Nat
  verification_source : String
deriving Repr, DecidableEq

/-- `ResearchBrief` from `models/schemas.py`.  `verification_stats` defaults to
an empty dict, modelled as `none`; the wall-clock `research_timestamp` field is
omitted (no claim mentions it and it is not meaningfully statable). -/
structure ResearchBrief where
  client_name : String
  target_question : String
  language_code : String
  key_facts : List String := []
  statistics : List StatisticItem := []
  quotations : List QuotationItem := []
  citations : List CitationItem := []
  source_urls : List String := []
  raw_content_summary : String := ""
  total_words_harvested : Nat := 0
  verification_stats : Option VerificationStats := none
deriving Repr, DecidableEq

/-- `GEOContentWorkflow._merge_research_briefs` (`orchestrator.py` lines
568-624), translated clause by clause:
facts are deduplicated against the *growing* combined list; statistics,
quotations and citations are deduplicated against key sets computed from the
*original* brief only (value / quote text / name respectively); source URLs
go through `list(set(original + additional))`, modelled as `List.dedup` of the
concatenation (Python's set order is unspecified, so URL facts are stated
set-wise); each content list is re-capped; the identity fields are copied from
`original` and the word counts are summed.  The source constructs and returns
a brand-new `ResearchBrief` and only reads its two arguments, which the pure
embedding reflects. -/
def merge_research_briefs (original additional : ResearchBrief) : ResearchBrief :=
  let combined_facts := additional.key_facts.foldl
    (fun acc fact => if acc.contains fact then acc else acc ++ [fact]) original.key_facts
  let existing_values := original.statistics.map (fun s => s.value)
  let combined_stats := original.statistics ++
    additional.statistics.filter (fun s => !(existing_values.contains s.value))
  let existing_quotes := original.quotations.map (fun q => q.quote)
  let combined_quotes := original.quotations ++
    additional.quotations.filter (fun q => !(existing_quotes.contains q.quote))
  let existing_names := original.citations.map (fun c => c.name)
  let combined_citations := original.citations ++
    additional.citations.filter (fun c => !(existing_names.contains c.name))
  let combined_urls := (original.source_urls ++ additional.source_urls).dedup
  { client_name := original.client_name
    target_question := original.target_question
    language_code := original.language_code
    key_facts := combined_facts.take 15
    statistics := combined_stats.take 8
    quotations := combined_quotes.take 5
    citations := combined_citations.take 10
    source_urls := combined_urls
    raw_content_summary :=
      original.raw_content_summary ++ "\n\n" ++ additional.raw_content_summary
    total_words_harvested :=
      original.total_words_harvested + additional.total_words_harvested
    verification_stats := none }

lemma foldl_dedup_of_subset (step : List String → String → List String)
    (hstep : ∀ acc x, step acc x = if acc.contains x then acc else acc ++ [x]) :
    ∀ (l acc : List String), (∀ x ∈ l, x ∈ acc) → l.foldl step acc = acc := by
  intro l
  induction l with
  | nil => intro acc _; rfl
  | cons x xs ih =>
      intro acc h
      have hx : x ∈ acc := h x (List.mem_cons_self x xs)
      have hcontains : acc.contains x = true := by
        simpa [List.contains, List.elem_iff] using hx
      simp only [List.foldl_cons, hstep, hcontains, if_pos]
      exact ih acc (fun y hy => h y (List.mem_cons_of_mem x hy))

lemma merge_self_facts (b : ResearchBrief) :
    (merge_research_briefs b b).key_facts = b.key_facts.take 15 := by
  unfold merge_research_briefs
  simp only
  rw [foldl_dedup_of_subset _ (fun acc x => rfl) b.key_facts b.key_facts (fun x hx => hx)]

lemma filter_not_mem_key_eq_nil {α β : Type} [DecidableEq β] (l : List α) (key : α → β) :
    l.filter (fun a => !((l.map key).contains (key a))) = [] := by
  apply List.filter_eq_nil_iff.mpr
  intro a ha
  simp [List.contains, List.elem_iff]
  exact ⟨a, ha, rfl⟩

/-- C5: merging a brief with itself yields identical (capped) fact, statistic,
quotation and citation lists and the same source-URL set with no duplicates.
Facts are unioned by exact text against the growing list, statistics by value,
quotations by quote text, citations by name, URLs as a set — so a self-merge
adds nothing. -/
theorem merge_self_idempotent (b : ResearchBrief) :
    (merge_research_briefs b b).key_facts = b.key_facts.take 15 ∧
    (merge_research_briefs b b).statistics = b.statistics.take 8 ∧
    (merge_research_briefs b b).quotations = b.quotations.take 5 ∧
    (merge_research_briefs b b).citations = b.citations.take 10 ∧
    (∀ u : String, u ∈ (merge_research_briefs b b).source_urls ↔ u ∈ b.source_urls) ∧
    (merge_research_briefs b b).source_urls.Nodup := by
  refine ⟨merge_self_facts b, ?_, ?_, ?_, ?_, ?_⟩
  · unfold merge_research_briefs
    simp only
    rw [filter_not_mem_key_eq_nil b.statistics (fun s => s.value)]
    simp
  · unfold merge_research_briefs
    simp only
    rw [filter_not_mem_key_eq_nil b.quotations (fun q => q.quote)]
    simp
  · unfold merge_research_briefs
    simp only
    rw [filter_not_mem_key_eq_nil b.citations (fun c => c.name)]
    simp
  · intro u
    unfold merge_research_briefs
    simp only [List.mem_dedup, List.mem_append, or_self]
  · unfold merge_research_briefs
    simp only
    exact (b.source_urls ++ b.source_urls).nodup_dedup

/-- C10: a merge keeps the left brief's identity fields, sums the two word
counts exactly, and — being embedded as a pure function over values, exactly
as the source builds a fresh `ResearchBrief` from read-only arguments —
modifies neither input. -/
theorem merge_frame_conditions (original additional : ResearchBrief) :
    (merge_research_briefs original additional).client_name = original.client_name ∧
    (merge_research_briefs original additional).target_question = original.target_question ∧
    (merge_research_briefs original additional).language_code = original.language_code ∧
    (merge_research_briefs original additional).total_words_harvested =
      original.total_words_harvested + additional.total_words_harvested := by
  refine ⟨rfl, rfl, rfl, rfl⟩

/-- Round half to even (Python's `round`) at the integer level. -/
def roundHalfEven (x : ℚ) : ℤ :=
  if x - ⌊x⌋ < 1 / 2 then ⌊x⌋
  else if 1 / 2 < x - ⌊x⌋ then ⌊x⌋ + 1
  else if ⌊x⌋ % 2 = 0 then ⌊x⌋ else ⌊x⌋ + 1

/-- `round(total, 2)` from `EvaluationScore.overall_score`
(`models/evaluation.py` line 116).  Python rounds the binary float half to
even; the rational model agrees everywhere the claims evaluate it (no value
sits within a float ulp of a half-cent boundary). -/
def roundTo2 (x : ℚ) : ℚ :=
  (roundHalfEven (x * 100) : ℚ) / 100

/-- `EvaluationScore` (`models/evaluation.py` lines 12-93): the twelve named
0-100 sub-scores. -/
structure EvaluationScore where
  statistics_score : ℚ
  citations_score : ℚ
  quotations_score : ℚ
  fluency_score : ℚ
  experience_score : ℚ
  expertise_score : ℚ
  authority_score : ℚ
  trust_score : ℚ
  opening_effectiveness : ℚ
  structure_quality : ℚ
  entity_mention_quality : ℚ
  language_accuracy : ℚ
deriving Repr, DecidableEq

/-- The twelve fixed weights of `EvaluationScore.overall_score`
(`models/evaluation.py` lines 99-112), in source order. -/
def evalWeights : List ℚ :=
  [0.12, 0.10, 0.12, 0.10, 0.08, 0.08, 0.08, 0.08, 0.10, 0.06, 0.04, 0.04]

/-- The `overall_score` property of `EvaluationScore` (`models/evaluation.py`
lines 95-116): the weighted sum of the twelve sub-scores, rounded to two
decimal places. -/
def EvaluationScore.overall_score (s : EvaluationScore) : ℚ :=
  roundTo2 (s.statistics_score * 0.12 + s.citations_score * 0.10 +
    s.quotations_score * 0.12 + s.fluency_score * 0.10 +
    s.experience_score * 0.08 + s.expertise_score * 0.08 +
    s.authority_score * 0.08 + s.trust_score * 0.08 +
    s.opening_effectiveness * 0.10 + s.structure_quality * 0.06 +
    s.entity_mention_quality * 0.04 + s.language_accuracy * 0.04)

/-- An `EvaluationScore` with every sub-score equal to `c`. -/
def constEvaluationScore (c : ℚ) : EvaluationScore :=
  ⟨c, c, c, c, c, c, c, c, c, c, c, c⟩

/-- `DraftEvaluation` (`models/evaluation.py` lines 144-176).  Its
`overall_score` is a stored field, distinct from the computed property on
`scores`.  The free-text `strengths`/`weaknesses`/`feedback` lists are kept as
plain strings (`_parse_feedback` only reshapes feedback text and no claim
concerns it, so feedback items are carried as their issue strings). -/
structure DraftEvaluation where
  draft_id : DraftId
  scores : EvaluationScore
  overall_score : ℚ
  strengths : List String := []
  weaknesses : List String := []
  statistics_count : Nat := 0
  citations_count : Nat := 0
  quotations_count : Nat := 0
  entity_mentions : Nat := 0
deriving Repr, DecidableEq

/-- `EvaluationResult` (`models/evaluation.py` lines 179-214). -/
structure EvaluationResult where
  draft_a : DraftEvaluation
  draft_b : DraftEvaluation
  selected_draft : DraftId
  selection_rationale : String
  passes_threshold : Bool
  threshold_value : Nat := 70
  revision_needed : List DraftId := []
  iteration_number : Nat := 1
deriving Repr, DecidableEq

/-- The `best_score` property of `EvaluationResult` (`models/evaluation.py`
lines 216-221). -/
def EvaluationResult.best_score (r : EvaluationResult) : ℚ :=
  if r.selected_draft = DraftId.A then r.draft_a.overall_score
  else r.draft_b.overall_score

/-- The `scores` sub-dict of one draft's entry in the parsed evaluation JSON:
each key may be absent (`dict.get(key, 50)` supplies 50). -/
structure ScoresData where
  statistics_score : Option ℚ := none
  citations_score : Option ℚ := none
  quotations_score : Option ℚ := none
  fluency_score : Option ℚ := none
  experience_score : Option ℚ := none
  expertise_score : Option ℚ := none
  authority_score : Option ℚ := none
  trust_score : Option ℚ := none
  opening_effectiveness : Option ℚ := none
  structure_quality : Option ℚ := none
  entity_mention_quality : Option ℚ := none
  language_accuracy : Option ℚ := none
deriving Repr, DecidableEq

/-- One draft's entry in the parsed evaluation JSON (`draft_a` / `draft_b`
keys of the dict consumed by `_build_evaluation_result`). -/
structure DraftData where
  scores : ScoresData := {}
  overall_score : Option ℚ := none
  strengths : Option (List String) := none
  weaknesses : Option (List String) := none
  revision_feedback : Option (List String) := none
  statistics_count : Option Nat := none
  citations_count : Option Nat := none
  quotations_count : Option Nat := none
  entity_mentions : Option Nat := none
deriving Repr, DecidableEq

/-- The parsed evaluation JSON consumed by
`EvaluatorAgent._build_evaluation_result` (`evaluator_agent.py` lines
236-311), with `none` for absent keys (Python `dict.get` defaults). -/
structure EvalData where
  draft_a : DraftData := {}
  draft_b : DraftData := {}
  selected_draft : Option DraftId := none
  selection_rationale : Option String := none
  passes_threshold : Option Bool := none
  revision_needed : Option (List DraftId) := none
deriving Repr, DecidableEq

/-- `EvaluationScore(... scores.get(key, 50) ...)` for one draft
(`evaluator_agent.py` lines 244-257). -/
def buildScores (d : ScoresData) : EvaluationScore :=
  { statistics_score := d.statistics_score.getD 50
    citations_score := d.citations_score.getD 50
    quotations_score := d.quotations_score.getD 50
    fluency_score := d.fluency_score.getD 50
    experience_score := d.experience_score.getD 50
    expertise_score := d.expertise_score.getD 50
    authority_score := d.authority_score.getD 50
    trust_score := d.trust_score.getD 50
    opening_effectiveness := d.opening_effectiveness.getD 50
    structure_quality := d.structure_quality.getD 50
    entity_mention_quality := d.entity_mention_quality.getD 50
    language_accuracy := d.language_accuracy.getD 50 }

/-- One `DraftEvaluation` as assembled by `_build_evaluation_result`
(`evaluator_agent.py` lines 242-296): note `overall_score` is read straight
from the payload with default 50, not recomputed from the sub-scores. -/
def buildDraftEvaluation (id : DraftId) (d : DraftData) : DraftEvaluation :=
  { draft_id := id
    scores := buildScores d.scores
    overall_score := d.overall_score.getD 50
    strengths := d.strengths.getD []
    weaknesses := d.weaknesses.getD []
    statistics_count := d.statistics_count.getD 0
    citations_count := d.citations_count.getD 0
    quotations_count := d.quotations_count.getD 0
    entity_mentions := d.entity_mentions.getD 0 }

/-- `EvaluatorAgent._build_evaluation_result` (`evaluator_agent.py` lines
236-311).  `threshold` stands for `settings.quality_threshold` (default 80). -/
def build_evaluation_result (threshold : Nat) (data : EvalData) : EvaluationResult :=
  { draft_a := buildDraftEvaluation DraftId.A data.draft_a
    draft_b := buildDraftEvaluation DraftId.B data.draft_b
    selected_draft := data.selected_draft.getD DraftId.A
    selection_rationale :=
      data.selection_rationale.getD "Selected based on overall score"
    passes_threshold := data.passes_threshold.getD true
    threshold_value := threshold
    revision_needed := data.revision_needed.getD [] }

/-- `EvaluatorAgent._default_evaluation_data` (`evaluator_agent.py` lines
418-451): the fixed fallback payload used when the response yields no JSON. -/
def default_evaluation_data : EvalData :=
  let default_scores : ScoresData :=
    { statistics_score := some 50
      citations_score := some 50
      quotations_score := some 50
      fluency_score := some 70
      experience_score := some 50
      expertise_score := some 50
      authority_score := some 50
      trust_score := some 50
      opening_effectiveness := some 60
      structure_quality := some 60
      entity_mention_quality := some 50
      language_accuracy := some 70 }
  { draft_a :=
      { scores := default_scores
        overall_score := some 55
        strengths := some []
        weaknesses := some [] }
    draft_b :=
      { scores := default_scores
        overall_score := some 55
        strengths := some []
        weaknesses := some [] }
    selected_draft := some DraftId.A
    passes_threshold := some false
    revision_needed := some [DraftId.A, DraftId.B] }

/-- `ContentDraft` (`models/schemas.py` lines 136-152). -/
structure ContentDraft where
  draft_id : DraftId
  content : String
  word_count : Nat
  model_used : String
  generation_time_ms : Nat
  statistics_count : Nat := 0
  citations_count : Nat := 0
  quotations_count : Nat := 0
deriving Repr, DecidableEq

/-- The heuristic fallback score of `EvaluatorAgent._default_evaluation`
(`evaluator_agent.py` lines 458-461): 50 plus 5 per statistic, 3 per citation
and 4 per quotation, capped at 85. -/
def defaultHeuristicScore (d : ContentDraft) : Nat :=
  min (50 + d.statistics_count * 5 + d.citations_count * 3 + d.quotations_count * 4) 85

/-- `EvaluatorAgent._default_evaluation` (`evaluator_agent.py` lines 453-473):
the heuristic comparison used when the evaluation call (or result
construction) raises.  `threshold` stands for `settings.quality_threshold`. -/
def default_evaluation (threshold : Nat) (draft_a draft_b : ContentDraft) :
    EvaluationResult :=
  let score_a := defaultHeuristicScore draft_a
  let score_b := defaultHeuristicScore draft_b
  let selected := if score_b ≤ score_a then DraftId.A else DraftId.B
  let best_score := max score_a score_b
  let base := default_evaluation_data
  let data : EvalData :=
    { base with
      draft_a := { base.draft_a with overall_score := some (score_a : ℚ) }
      draft_b := { base.draft_b with overall_score := some (score_b : ℚ) }
      selected_draft := some selected
      passes_threshold := some (decide (threshold ≤ best_score)) }
  build_evaluation_result threshold data

/-- Outcome of one `evaluate_drafts` round, as seen after the external LLM
call: either the model answered and brace-extraction plus `json.loads`
produced a payload (`parsed = some data`), or it answered but no JSON object
could be parsed (`parsed = none`, the `JSONDecodeError` / no-brace path of
`_parse_evaluation_response`), or an exception escaped the `try` block (the
LLM call failed, or pydantic validation of the built result raised). -/
inductive EvalCallOutcome where
  | response (parsed : Option EvalData)
  | raised
deriving Repr, DecidableEq

/-- `EvaluatorAgent.evaluate_drafts` (`evaluator_agent.py` lines 52-121):
on a response, `_parse_evaluation_response` returns the parsed payload or
falls back to `_default_evaluation_data()`, and the result is built from it;
on an exception, `_default_evaluation(draft_a, draft_b)` is returned. -/
def evaluate_drafts (threshold : Nat) (outcome : EvalCallOutcome)
    (draft_a draft_b : ContentDraft) : EvaluationResult :=
  match outcome with
  | EvalCallOutcome.response parsed =>
      build_evaluation_result threshold (parsed.getD default_evaluation_data)
  | EvalCallOutcome.raised => default_evaluation threshold draft_a draft_b

/-- The evaluation payload of the C1 counterexample: sub-scores all absent
(defaulting to 50) while the LLM-stated `overall_score` for draft A is 99. -/
def c1CounterData : EvalData :=
  { draft_a := { overall_score := some 99 } }

/-- C1 counterexample: with all twelve sub-scores defaulted to 50 but an
LLM-stated total of 99, the built result's draft-A `overall_score` is 99,
while the fixed weighted sum of its sub-scores is 50 — so `overall_score` is
taken from the LLM's own stated total, contradicting the claim. -/
theorem overall_score_from_llm_counterexample :
    (build_evaluation_result 80 c1CounterData).draft_a.overall_score = 99 ∧
    ((build_evaluation_result 80 c1CounterData).draft_a.scores).overall_score = 50 ∧
    (99 : ℚ) ≠ 50 := by
  refine ⟨rfl, ?_, by norm_num⟩
  show (constEvaluationScore 50).overall_score = 50
  norm_num [constEvaluationScore, EvaluationScore.overall_score, roundTo2, roundHalfEven]

/-- C1 amended: the `overall_score` *property* on `EvaluationScore` is the
fixed weighted sum of the twelve named sub-scores (weights summing to 1.0, so
sub-scores all equal to 50 give an overall of 50.0), but each draft's stored
`overall_score` in an `EvaluationResult` built by `_build_evaluation_result`
is taken from the LLM payload's stated total (defaulting to 50 when absent),
not recomputed from the sub-scores. -/
theorem overall_score_weighted_sum_amended :
    evalWeights.sum = 1 ∧
    (constEvaluationScore 50).overall_score = 50 ∧
    (∀ (threshold : Nat) (data : EvalData),
      (build_evaluation_result threshold data).draft_a.overall_score =
        data.draft_a.overall_score.getD 50) ∧
    (∀ (threshold : Nat) (data : EvalData),
      (build_evaluation_result threshold data).draft_b.overall_score =
        data.draft_b.overall_score.getD 50) := by
  refine ⟨by norm_num [evalWeights], ?_, ?_, ?_⟩
  · norm_num [constEvaluationScore, EvaluationScore.overall_score, roundTo2, roundHalfEven]
  · intro threshold data
    rfl
  · intro threshold data
    rfl

/-- Draft A of the C7 counterexample: two heuristic statistics found. -/
def c7DraftA : ContentDraft :=
  { draft_id := DraftId.A
    content := "Draft A text"
    word_count := 3
    model_used := "gpt-4.1-mini"
    generation_time_ms := 10
    statistics_count := 2 }

/-- Draft B of the C7 counterexample: no heuristic GEO elements. -/
def c7DraftB : ContentDraft :=
  { draft_id := DraftId.B
    content := "Draft B text"
    word_count := 3
    model_used := "claude-3-5-haiku"
    generation_time_ms := 10 }

/-- C7 counterexample: when the response fails to parse as JSON
(`_parse_evaluation_response` falls back to `_default_evaluation_data`), the
returned overall score for a draft carrying two statistics is the fixed 55 —
not the claimed heuristic 50 + 2·5 = 60 — so a parse failure does *not*
produce the count-based default evaluation. -/
theorem default_evaluation_parse_counterexample :
    (evaluate_drafts 80 (EvalCallOutcome.response none) c7DraftA c7DraftB).draft_a.overall_score
      = 55 ∧
    (defaultHeuristicScore c7DraftA : ℚ) = 60 ∧
    (55 : ℚ) ≠ 60 := by
  refine ⟨rfl, ?_, by norm_num⟩
  norm_num [defaultHeuristicScore, c7DraftA]

/-- C7 amended: a JSON parse failure of the evaluation response produces the
*fixed* default payload (both overall scores 55, draft A selected,
`passes_threshold` false, both drafts flagged for revision); the
deterministic count-based default — 50 plus 5 per statistic, 3 per citation
and 4 per quotation, capped at 85, draft A winning ties, passing exactly when
the best score reaches the quality threshold — is returned only when the
evaluation call or result construction raises an exception. -/
theorem default_evaluation_behaviour_amended :
    (∀ (threshold : Nat) (a b : ContentDraft),
      (evaluate_drafts threshold (EvalCallOutcome.response none) a b).draft_a.overall_score = 55 ∧
      (evaluate_drafts threshold (EvalCallOutcome.response none) a b).draft_b.overall_score = 55 ∧
      (evaluate_drafts threshold (EvalCallOutcome.response none) a b).selected_draft = DraftId.A ∧
      (evaluate_drafts threshold (EvalCallOutcome.response none) a b).passes_threshold = false ∧
      (evaluate_drafts threshold (EvalCallOutcome.response none) a b).revision_needed
        = [DraftId.A, DraftId.B]) ∧
    (∀ (threshold : Nat) (a b : ContentDraft),
      (evaluate_drafts threshold EvalCallOutcome.raised a b).draft_a.overall_score =
        ((min (50 + a.statistics_count * 5 + a.citations_count * 3 + a.quotations_count * 4) 85
          : Nat) : ℚ) ∧
      (evaluate_drafts threshold EvalCallOutcome.raised a b).draft_b.overall_score =
        ((min (50 + b.statistics_count * 5 + b.citations_count * 3 + b.quotations_count * 4) 85
          : Nat) : ℚ) ∧
      (evaluate_drafts threshold EvalCallOutcome.raised a b).selected_draft =
        (if defaultHeuristicScore b ≤ defaultHeuristicScore a then DraftId.A else DraftId.B) ∧
      (evaluate_drafts threshold EvalCallOutcome.raised a b).passes_threshold =
        decide (threshold ≤ max (defaultHeuristicScore a) (defaultHeuristicScore b))) := by
  refine ⟨?_, ?_⟩
  · intro threshold a b
    exact ⟨rfl, rfl, rfl, rfl, rfl⟩
  · intro threshold a b
    exact ⟨rfl, rfl, rfl, rfl⟩

/-- The `eeat_analysis` sub-dict of the parsed commentary JSON, with `none`
for absent keys. -/
structure EEATData where
  experience_signals : Option (List String) := none
  expertise_signals : Option (List String) := none
  authority_signals : Option (List String) := none
  trust_signals : Option (List String) := none
  overall_eeat_score : Option ℤ := none
  eeat_summary : Option String := none
deriving Repr, DecidableEq

/-- `EEATAnalysis` from `models/geo_commentary.py` (score field constrained to
0-10 by pydantic). -/
structure EEATAnalysis where
  experience_signals : List String := []
  expertise_signals : List String := []
  authority_signals : List String := []
  trust_signals : List String := []
  overall_eeat_score : ℤ
  eeat_summary : String := ""
deriving Repr, DecidableEq

/-- The E-E-A-T branch of `EvaluatorAgent._build_commentary`
(`evaluator_agent.py` lines 361-381): the raw score defaults to 5, a raw
value above 10 is floor-divided by 10 (Python `//`) and clamped as
`min(10, max(0, raw // 10))`, anything else is clamped as
`max(0, min(10, raw))`. -/
def build_commentary_eeat (eeat_data : EEATData) : EEATAnalysis :=
  let raw_eeat_score := eeat_data.overall_eeat_score.getD 5
  let normalized_score :=
    if raw_eeat_score > 10 then min 10 (max 0 (Int.fdiv raw_eeat_score 10))
    else max 0 (min 10 raw_eeat_score)
  { experience_signals := eeat_data.experience_signals.getD []
    expertise_signals := eeat_data.expertise_signals.getD []
    authority_signals := eeat_data.authority_signals.getD []
    trust_signals := eeat_data.trust_signals.getD []
    overall_eeat_score := normalized_score
    eeat_summary := eeat_data.eeat_summary.getD "" }

/-- An `eeat_analysis` payload carrying just a raw overall score. -/
def mkEEATData (raw : ℤ) : EEATData :=
  { overall_eeat_score := some raw }

/-- C6: commentary building normalizes an out-of-range raw E-E-A-T score —
above 10 it is floor-divided by 10 then clamped to [0, 10], otherwise it is
clamped to [0, 10]; in particular 85 becomes 8, 7 stays 7 and -3 becomes 0. -/
theorem eeat_score_normalization :
    (∀ raw : ℤ,
      (build_commentary_eeat (mkEEATData raw)).overall_eeat_score =
        if 10 < raw then max 0 (min 10 (Int.fdiv raw 10)) else max 0 (min 10 raw)) ∧
    (build_commentary_eeat (mkEEATData 85)).overall_eeat_score = 8 ∧
    (build_commentary_eeat (mkEEATData 7)).overall_eeat_score = 7 ∧
    (build_commentary_eeat (mkEEATData (-3))).overall_eeat_score = 0 := by
  refine ⟨?_, by decide, by decide, by decide⟩
  intro raw
  show (if raw > 10 then min 10 (max 0 (Int.fdiv raw 10)) else max 0 (min 10 raw)) =
    if 10 < raw then max 0 (min 10 (Int.fdiv raw 10)) else max 0 (min 10 raw)
  rcases lt_or_le 10 raw with h | h
  · rw [if_pos h, if_pos h]
    omega
  · rw [if_neg (not_lt.mpr h), if_neg (not_lt.mpr h)]

/-- Substring test on character lists (Python's `in` on strings). -/
def listContainsSub (needle : List Char) : List Char → Bool
  | [] => needle.isEmpty
  | c :: rest => needle.isPrefixOf (c :: rest) || listContainsSub needle rest

/-- Python `needle in hay` for strings. -/
def strContainsSub (hay pat : String) : Bool :=
  listContainsSub pat.data hay.data

/-- Python `str.lower()`.  ASCII case mapping suffices here: every keyword the
parser matches against is ASCII. -/
def strToLower (s : String) : String :=
  String.mk (s.data.map Char.toLower)

/-- Python `line.startswith(("-", "•", "*", "1", ..., "9"))` from
`_parse_research_result` (`research_agent.py` line 481). -/
def isListItemStart (line : String) : Bool :=
  match line.data with
  | [] => false
  | c :: _ => c == '-' || c == '•' || c == '*' || ('1' ≤ c && c ≤ '9')

/-- Membership in the Python lstrip set `"-•*0123456789.) "`
(`research_agent.py` line 483). -/
def isLstripChar (c : Char) : Bool :=
  c == '-' || c == '•' || c == '*' || ('0' ≤ c && c ≤ '9') || c == '.' || c == ')' || c == ' '

/-- `line.lstrip("-•*0123456789.) ")`. -/
def listItemContent (line : String) : String :=
  String.mk (line.data.dropWhile isLstripChar)

/-- `len(raw_output.split())`: Python `str.split()` drops empty tokens. -/
def whitespaceSplitCount (s : String) : Nat :=
  ((s.split Char.isWhitespace).filter (fun t => !t.isEmpty)).length

/-- The section the line-oriented research parser is currently in. -/
inductive BriefSection where
  | facts
  | statistics
  | quotations
  | citations
deriving Repr, DecidableEq

/-- Accumulator of `ResearchAgent._parse_research_result`'s line loop. -/
structure ParseState where
  current_section : Option BriefSection := none
  key_facts : List String := []
  statistics : List StatisticItem := []
  quotations : List QuotationItem := []
  citations : List CitationItem := []
deriving Repr, DecidableEq

/-- `StatisticItem(value=content[:50], context=content, source="Research
Agent")` — note `verified` is left at its `False` default. -/
def mkParsedStatistic (content : String) : StatisticItem :=
  { value := content.take 50, context := content, source := "Research Agent" }

/-- `QuotationItem(quote=content, speaker="Expert", source="Research Agent")`
— note `verified` is left at its `False` default. -/
def mkParsedQuotation (content : String) : QuotationItem :=
  { quote := content, speaker := "Expert", source := "Research Agent" }

/-- `CitationItem(name=content[:100], description=content)`. -/
def mkParsedCitation (content : String) : CitationItem :=
  { name := content.take 100, description := content }

/-- One iteration of the line loop of `ResearchAgent._parse_research_result`
(`research_agent.py` lines 466-509): strip the line, skip it when empty,
switch section on a header keyword (checked *before* the list-item test, in
source order), otherwise capture a list item under the current section. -/
def processLine (st : ParseState) (raw_line : String) : ParseState :=
  let line := raw_line.trim
  if line.isEmpty then st
  else
    let lower_line := strToLower line
    if strContainsSub lower_line "fact" || strContainsSub lower_line "key point" then
      { st with current_section := some BriefSection.facts }
    else if strContainsSub lower_line "statistic" || strContainsSub lower_line "data" then
      { st with current_section := some BriefSection.statistics }
    else if strContainsSub lower_line "quote" || strContainsSub lower_line "quotation" then
      { st with current_section := some BriefSection.quotations }
    else if strContainsSub lower_line "source" || strContainsSub lower_line "citation" then
      { st with current_section := some BriefSection.citations }
    else if isListItemStart line then
      let content := listItemContent line
      if content.isEmpty then st
      else
        match st.current_section with
        | some BriefSection.facts =>
            { st with key_facts := st.key_facts ++ [content] }
        | some BriefSection.statistics =>
            { st with statistics := st.statistics ++ [mkParsedStatistic content] }
        | some BriefSection.quotations =>
            { st with quotations := st.quotations ++ [mkParsedQuotation content] }
        | some BriefSection.citations =>
            { st with citations := st.citations ++ [mkParsedCitation content] }
        | none => st
    else st

/-- `ResearchAgent._parse_research_result` (`research_agent.py` lines
436-527): keyword-driven line parsing, a single fallback fact when none were
captured, and the 15/8/5/10 caps. -/
def parse_research_result (raw_output client_name target_question language_code : String)
    (source_urls : List String) : ResearchBrief :=
  let st := (raw_output.splitOn "\n").foldl processLine {}
  let key_facts :=
    if st.key_facts.isEmpty then
      ["Research conducted for " ++ client_name ++ " on: " ++ target_question]
    else st.key_facts
  { client_name := client_name
    target_question := target_question
    language_code := language_code
    key_facts := key_facts.take 15
    statistics := st.statistics.take 8
    quotations := st.quotations.take 5
    citations := st.citations.take 10
    source_urls := source_urls
    raw_content_summary := raw_output.take 3000
    total_words_harvested := whitespaceSplitCount raw_output }

/-- Python `x or default` for an optional string (`None` and `""` both fall
through to the default). -/
def strOrDefault (o : Option String) (d : String) : String :=
  match o with
  | some s => if s.isEmpty then d else s
  | none => d

/-- `PerplexityQuoteResult` (`tools/perplexity_search.py` lines 44-54): one
quote match extracted from the Perplexity response text. -/
structure PerplexityQuoteResult where
  quote : String
  speaker : String
  title : Option String := none
  organization : Option String := none
  source_url : Option String := none
  context : Option String := none
deriving Repr, DecidableEq

/-- `PerplexityQuoteResult.to_quotation_item` (`tools/perplexity_search.py`
lines 55-69): builds the title string from title/organization (Python
truthiness on both), defaults the source text, and always sets
`verified=True` with `verification_source="perplexity"`. -/
def PerplexityQuoteResult.to_quotation_item (p : PerplexityQuoteResult) : QuotationItem :=
  let t := strOrDefault p.title ""
  let title_str :=
    match p.organization with
    | some org =>
        if org.isEmpty then t
        else if t.isEmpty then org else t ++ " at " ++ org
    | none => t
  { quote := p.quote
    speaker := p.speaker
    title := if title_str.isEmpty then none else some title_str
    source := strOrDefault p.context "Perplexity AI search"
    source_url := p.source_url
    verified := true
    verification_source := some "perplexity" }

/-- Deduplication pass of `_parse_quotes_from_response`
(`tools/perplexity_search.py` lines 198-206): the first 50 characters of the
quote, lowercased, are the key; first occurrence wins. -/
def dedupQuotesGo (seen : List String) : List PerplexityQuoteResult → List PerplexityQuoteResult
  | [] => []
  | q :: rest =>
      let quote_key := strToLower (q.quote.take 50)
      if seen.contains quote_key then dedupQuotesGo seen rest
      else q :: dedupQuotesGo (seen ++ [quote_key]) rest

/-- Tail of `_parse_quotes_from_response` (`tools/perplexity_search.py` lines
198-207): deduplicate the regex matches, return at most 5.  The regex
matching over the response text is the oracle input `matched`. -/
def parse_quotes_from_response (matched : List PerplexityQuoteResult) :
    List PerplexityQuoteResult :=
  (dedupQuotesGo [] matched).take 5

/-- `perplexity_quote_search` (`tools/perplexity_search.py` lines 210-311),
post-HTTP: parse quotes from the response and convert the first `max_quotes`
of them; every returned item has `verified=True`.  (All HTTP/API failure
paths in the source return `[]`, which corresponds to `matched = []`.) -/
def perplexity_quote_search (matched : List PerplexityQuoteResult) (max_quotes : Nat) :
    List QuotationItem :=
  ((parse_quotes_from_response matched).take max_quotes).map
    PerplexityQuoteResult.to_quotation_item

/-- Oracle inputs of one `ResearchAgent.conduct_research` run:
`agent_result` is the `Runner.run` outcome (`.error` = exception, which the
source maps to the minimal placeholder brief), and `quote_search n` is the
outcome of the n-th `perplexity_quote_search` call (0 = the initial search,
1 and 2 = the top-up retries), where `.error` stands for an escaped exception
caught by the surrounding handler. -/
structure ResearchEnv where
  agent_result : Except String String
  quote_search : Nat → Except Unit (List PerplexityQuoteResult)

/-- The quotations-prepend step of `conduct_research` (`research_agent.py`
lines 296-312): a non-empty verified-quote list is prepended to the parsed
brief's quotations; failures and empty results leave the brief unchanged. -/
def prepend_verified_quotes (qcall : Except Unit (List PerplexityQuoteResult))
    (brief0 : ResearchBrief) : ResearchBrief :=
  match qcall with
  | Except.ok matched =>
      let perplexity_quotes := perplexity_quote_search matched 3
      if perplexity_quotes.isEmpty then brief0
      else { brief0 with quotations := perplexity_quotes ++ brief0.quotations }
  | Except.error _ => brief0

/-- Mutable state of the top-up retry loop in `conduct_research`
(`research_agent.py` lines 347-396). -/
structure RetryState where
  verified_stats : List StatisticItem
  verified_quotes : List QuotationItem
  retries_performed : Nat
deriving Repr

/-- One iteration of `for retry in range(max_retries)` (`research_agent.py`
lines 353-396), with `min_stats = 2` and `min_quotes = 1`: stop when both
minima are met, otherwise record the retry and, if quotes are still short,
extend them with a fresh quote search (whose items are all verified).  The
statistics retry in the source calls `perplexity_search_statistics` with a
`max_stats` keyword its signature `(topic, client_name)` does not accept, so
that call raises `TypeError`, is caught by its `except` clause, and
`verified_stats` is never extended. -/
def conduct_research_retry_step (env : ResearchEnv) (retry : Nat) (st : RetryState) :
    RetryState :=
  if 2 ≤ st.verified_stats.length ∧ 1 ≤ st.verified_quotes.length then st
  else
    let st1 : RetryState := { st with retries_performed := retry + 1 }
    if st1.verified_quotes.length < 1 then
      match env.quote_search (retry + 1) with
      | Except.ok matched =>
          let additional_quotes := perplexity_quote_search matched 3
          if additional_quotes.isEmpty then st1
          else { st1 with verified_quotes := st1.verified_quotes ++ additional_quotes }
      | Except.error _ => st1
    else st1

/-- `ResearchAgent.conduct_research` (`research_agent.py` lines 208-434):
parse the agent output into a brief, prepend verified Perplexity quotes,
filter statistics and quotations down to verified items, run the two bounded
top-up retries, and record verification metrics; a top-level exception yields
the minimal placeholder brief.  (As in `conduct_research_retry_step`, the
statistics search calls never contribute: they raise `TypeError` on the
unsupported `max_stats` keyword and are caught.) -/
def conduct_research (env : ResearchEnv)
    (client_name target_question language_code : String)
    (reference_urls : List String) : ResearchBrief :=
  match env.agent_result with
  | Except.error e =>
      { client_name := client_name
        target_question := target_question
        language_code := language_code
        key_facts := ["Research for " ++ client_name ++ " regarding: " ++ target_question]
        statistics := []
        quotations := []
        citations := []
        source_urls := reference_urls
        raw_content_summary := "Error during research: " ++ e }
  | Except.ok final_output =>
      let brief1 := prepend_verified_quotes (env.quote_search 0)
        (parse_research_result final_output client_name target_question language_code
          reference_urls)
      let verified_stats := brief1.statistics.filter (fun s => s.verified)
      let verified_quotes := brief1.quotations.filter (fun q => q.verified)
      let unverified_stats_count := brief1.statistics.length - verified_stats.length
      let unverified_quotes_count := brief1.quotations.length - verified_quotes.length
      let st2 := conduct_research_retry_step env 1
        (conduct_research_retry_step env 0 ⟨verified_stats, verified_quotes, 0⟩)
      { brief1 with
        statistics := st2.verified_stats
        quotations := st2.verified_quotes
        verification_stats := some
          { total_stats_found := st2.verified_stats.length + unverified_stats_count
            verified_stats := st2.verified_stats.length
            discarded_stats := unverified_stats_count
            total_quotes_found := st2.verified_quotes.length + unverified_quotes_count
            verified_quotes := st2.verified_quotes.length
            discarded_quotes := unverified_quotes_count
            retry_attempts := st2.retries_performed
            verification_source := "perplexity" } }

lemma all_filter_self {α : Type} (p : α → Bool) (l : List α) :
    (l.filter p).all p = true := by
  rw [List.all_eq_true]
  intro x hx
  exact (List.mem_filter.mp hx).2

lemma all_take {α : Type} (p : α → Bool) (l : List α) (n : Nat)
    (h : l.all p = true) : (l.take n).all p = true := by
  rw [List.all_eq_true] at h ⊢
  intro x hx
  exact h x (List.mem_of_mem_take hx)

lemma filter_of_all_not {α : Type} (p : α → Bool) (l : List α)
    (h : l.all (fun x => !(p x)) = true) : l.filter p = [] := by
  apply List.filter_eq_nil_iff.mpr
  intro a ha
  have := List.all_eq_true.mp h a ha
  simp at this
  simp [this]

lemma to_quotation_item_verified (p : PerplexityQuoteResult) :
    p.to_quotation_item.verified = true := rfl

lemma perplexity_quote_search_all_verified (matched : List PerplexityQuoteResult)
    (max_quotes : Nat) :
    (perplexity_quote_search matched max_quotes).all (fun q => q.verified) = true := by
  rw [List.all_eq_true]
  intro q hq
  rcases List.mem_map.mp hq with ⟨p, _, hpq⟩
  rw [← hpq]
  rfl

lemma perplexity_quote_search_length (matched : List PerplexityQuoteResult)
    (max_quotes : Nat) :
    (perplexity_quote_search matched max_quotes).length ≤ max_quotes := by
  unfold perplexity_quote_search
  rw [List.length_map]
  exact (List.length_take_le _ _).trans (le_refl _)

lemma processLine_quotations (st : ParseState) (line : String) :
    (processLine st line).quotations = st.quotations ∨
    ∃ c, (processLine st line).quotations = st.quotations ++ [mkParsedQuotation c] := by
  simp only [processLine]
  repeat' split
  all_goals first
    | exact Or.inl rfl
    | exact Or.inr ⟨_, rfl⟩

lemma processLine_statistics (st : ParseState) (line : String) :
    (processLine st line).statistics = st.statistics ∨
    ∃ c, (processLine st line).statistics = st.statistics ++ [mkParsedStatistic c] := by
  simp only [processLine]
  repeat' split
  all_goals first
    | exact Or.inl rfl
    | exact Or.inr ⟨_, rfl⟩

lemma processLine_quotes_unverified (st : ParseState) (line : String)
    (h : st.quotations.all (fun q => !q.verified) = true) :
    ((processLine st line).quotations.all (fun q => !q.verified)) = true := by
  rcases processLine_quotations st line with heq | ⟨c, heq⟩
  · rw [heq]; exact h
  · rw [heq, List.all_append, h]
    rfl

lemma processLine_stats_unverified (st : ParseState) (line : String)
    (h : st.statistics.all (fun s => !s.verified) = true) :
    ((processLine st line).statistics.all (fun s => !s.verified)) = true := by
  rcases processLine_statistics st line with heq | ⟨c, heq⟩
  · rw [heq]; exact h
  · rw [heq, List.all_append, h]
    rfl

lemma foldl_processLine_quotes_unverified :
    ∀ (lines : List String) (st : ParseState),
      st.quotations.all (fun q => !q.verified) = true →
      ((lines.foldl processLine st).quotations.all (fun q => !q.verified)) = true := by
  intro lines
  induction lines with
  | nil => intro st h; exact h
  | cons l ls ih =>
      intro st h
      exact ih _ (processLine_quotes_unverified st l h)

lemma foldl_processLine_stats_unverified :
    ∀ (lines : List String) (st : ParseState),
      st.statistics.all (fun s => !s.verified) = true →
      ((lines.foldl processLine st).statistics.all (fun s => !s.verified)) = true := by
  intro lines
  induction lines with
  | nil => intro st h; exact h
  | cons l ls ih =>
      intro st h
      exact ih _ (processLine_stats_unverified st l h)

lemma parse_research_result_quotes_unverified (raw client question lang : String)
    (urls : List String) :
    ((parse_research_result raw client question lang urls).quotations.all
      (fun q => !q.verified)) = true := by
  unfold parse_research_result
  exact all_take _ _ _ (foldl_processLine_quotes_unverified _ {} rfl)

lemma parse_research_result_stats_unverified (raw client question lang : String)
    (urls : List String) :
    ((parse_research_result raw client question lang urls).statistics.all
      (fun s => !s.verified)) = true := by
  unfold parse_research_result
  exact all_take _ _ _ (foldl_processLine_stats_unverified _ {} rfl)

lemma prepend_verified_quotes_statistics (qc : Except Unit (List PerplexityQuoteResult))
    (b : ResearchBrief) : (prepend_verified_quotes qc b).statistics = b.statistics := by
  simp only [prepend_verified_quotes]
  repeat' split
  all_goals rfl

lemma prepend_verified_quotes_key_facts (qc : Except Unit (List PerplexityQuoteResult))
    (b : ResearchBrief) : (prepend_verified_quotes qc b).key_facts = b.key_facts := by
  simp only [prepend_verified_quotes]
  repeat' split
  all_goals rfl

lemma prepend_verified_quotes_citations (qc : Except Unit (List PerplexityQuoteResult))
    (b : ResearchBrief) : (prepend_verified_quotes qc b).citations = b.citations := by
  simp only [prepend_verified_quotes]
  repeat' split
  all_goals rfl

lemma prepend_verified_quotes_quotations (qc : Except Unit (List PerplexityQuoteResult))
    (b : ResearchBrief) :
    (prepend_verified_quotes qc b).quotations = b.quotations ∨
    ∃ matched, (prepend_verified_quotes qc b).quotations =
      perplexity_quote_search matched 3 ++ b.quotations := by
  simp only [prepend_verified_quotes]
  repeat' split
  all_goals first
    | exact Or.inl rfl
    | exact Or.inr ⟨_, rfl⟩

lemma prepend_filter_verified_length (qc : Except Unit (List PerplexityQuoteResult))
    (b : ResearchBrief) (h : b.quotations.all (fun q => !q.verified) = true) :
    ((prepend_verified_quotes qc b).quotations.filter (fun q => q.verified)).length ≤ 3 := by
  rcases prepend_verified_quotes_quotations qc b with heq | ⟨matched, heq⟩
  · rw [heq, filter_of_all_not _ _ h]
    simp
  · rw [heq, List.filter_append, filter_of_all_not _ _ h, List.append_nil]
    exact (List.length_filter_le _ _).trans (perplexity_quote_search_length matched 3)

lemma retry_step_stats_eq (env : ResearchEnv) (retry : Nat) (st : RetryState) :
    (conduct_research_retry_step env retry st).verified_stats = st.verified_stats := by
  simp only [conduct_research_retry_step]
  repeat' split
  all_goals rfl

lemma retry_step_quotes_all_verified (env : ResearchEnv) (retry : Nat) (st : RetryState)
    (h : st.verified_quotes.all (fun q => q.verified) = true) :
    ((conduct_research_retry_step env retry st).verified_quotes.all
      (fun q => q.verified)) = true := by
  simp only [conduct_research_retry_step]
  repeat' split
  all_goals simp only [List.all_append, h, Bool.true_and]
  all_goals first
    | rfl
    | exact perplexity_quote_search_all_verified _ _

lemma retry_step_quotes_length (env : ResearchEnv) (retry : Nat) (st : RetryState)
    (h : st.verified_quotes.length ≤ 3) :
    (conduct_research_retry_step env retry st).verified_quotes.length ≤ 3 := by
  simp only [conduct_research_retry_step]
  split
  · exact h
  · split
    · split
      · split
        · exact h
        · rename_i matched heq hne
          simp only [List.length_append]
          have hb := perplexity_quote_search_length matched 3
          omega
      · exact h
    · exact h

/-- C3: every brief returned by `conduct_research` — including the minimal
placeholder brief returned when the research run raises — carries only
verified statistics and verified quotations: unverified parsed items are
filtered out before the top-up retries, and every item the retries add comes
from `to_quotation_item`, which sets `verified=True`. -/
theorem conduct_research_verified_invariant (env : ResearchEnv)
    (client_name target_question language_code : String) (reference_urls : List String) :
    ((conduct_research env client_name target_question language_code
        reference_urls).statistics.all (fun s => s.verified)) = true ∧
    ((conduct_research env client_name target_question language_code
        reference_urls).quotations.all (fun q => q.verified)) = true := by
  rcases henv : env.agent_result with e | out
  · simp only [conduct_research, henv]
    exact ⟨rfl, rfl⟩
  · simp only [conduct_research, henv]
    constructor
    · rw [retry_step_stats_eq, retry_step_stats_eq]
      exact all_filter_self _ _
    · apply retry_step_quotes_all_verified
      apply retry_step_quotes_all_verified
      exact all_filter_self _ _

/-- C4: the 15/8/5/10 caps on facts/statistics/quotations/citations hold for
every brief the system constructs: briefs parsed by
`_parse_research_result`, briefs returned by `conduct_research` after its
bounded top-up retries, and briefs produced by `_merge_research_briefs` —
i.e. both before and after any merge. -/
theorem research_brief_caps (raw_output client_name target_question language_code : String)
    (source_urls : List String) (env : ResearchEnv) (b1 b2 : ResearchBrief) :
    (parse_research_result raw_output client_name target_question language_code
        source_urls).key_facts.length ≤ 15 ∧
    (parse_research_result raw_output client_name target_question language_code
        source_urls).statistics.length ≤ 8 ∧
    (parse_research_result raw_output client_name target_question language_code
        source_urls).quotations.length ≤ 5 ∧
    (parse_research_result raw_output client_name target_question language_code
        source_urls).citations.length ≤ 10 ∧
    (conduct_research env client_name target_question language_code
        source_urls).key_facts.length ≤ 15 ∧
    (conduct_research env client_name target_question language_code
        source_urls).statistics.length ≤ 8 ∧
    (conduct_research env client_name target_question language_code
        source_urls).quotations.length ≤ 5 ∧
    (conduct_research env client_name target_question language_code
        source_urls).citations.length ≤ 10 ∧
    (merge_research_briefs b1 b2).key_facts.length ≤ 15 ∧
    (merge_research_briefs b1 b2).statistics.length ≤ 8 ∧
    (merge_research_briefs b1 b2).quotations.length ≤ 5 ∧
    (merge_research_briefs b1 b2).citations.length ≤ 10 := by
  refine ⟨?_, ?_, ?_, ?_, ?_, ?_, ?_, ?_, ?_, ?_, ?_, ?_⟩
  · exact List.length_take_le _ _
  · exact List.length_take_le _ _
  · exact List.length_take_le _ _
  · exact List.length_take_le _ _
  · rcases henv : env.agent_result with e | out
    · simp only [conduct_research, henv]
      simp
    · simp only [conduct_research, henv]
      rw [prepend_verified_quotes_key_facts]
      exact List.length_take_le _ _
  · rcases henv : env.agent_result with e | out
    · simp only [conduct_research, henv]
      simp
    · simp only [conduct_research, henv]
      rw [retry_step_stats_eq, retry_step_stats_eq]
      refine (List.length_filter_le _ _).trans ?_
      rw [prepend_verified_quotes_statistics]
      exact List.length_take_le _ _
  · rcases henv : env.agent_result with e | out
    · simp only [conduct_research, henv]
      simp
    · simp only [conduct_research, henv]
      have h3 : ((conduct_research_retry_step env 1 (conduct_research_retry_step env 0
          ⟨(prepend_verified_quotes (env.quote_search 0)
              (parse_research_result out client_name target_question language_code
                source_urls)).statistics.filter (fun s => s.verified),
            (prepend_verified_quotes (env.quote_search 0)
              (parse_research_result out client_name target_question language_code
                source_urls)).quotations.filter (fun q => q.verified),
            0⟩)).verified_quotes.length) ≤ 3 := by
        apply retry_step_quotes_length
        apply retry_step_quotes_length
        exact prepend_filter_verified_length _ _
          (parse_research_result_quotes_unverified _ _ _ _ _)
      exact h3.trans (by omega)
  · rcases henv : env.agent_result with e | out
    · simp only [conduct_research, henv]
      simp
    · simp only [conduct_research, henv]
      rw [prepend_verified_quotes_citations]
      exact List.length_take_le _ _
  · exact List.length_take_le _ _
  · exact List.length_take_le _ _
  · exact List.length_take_le _ _
  · exact List.length_take_le _ _

/-- Heuristic element counters of the writer agents (`writer_agent_a.py`
lines 149-205 and the identical family in `writer_agent_b.py`): pure
regex-based functions of the generated text, capped at 10/10/5.  They are
passed in as function parameters; only their application sites matter to the
claims settled here. -/
structure GeoCounters where
  count_words : String → String → Nat
  count_statistics : String → Nat
  count_citations : String → Nat
  count_quotations : String → Nat

/-- `WriterAgentA.generate_content` (`writer_agent_a.py` lines 56-147):
`gen` is the outcome of the `Runner.run` call (`.ok` = final output text,
`.error` = the exception's message).  On success the draft carries the
language-aware word count and the three heuristic counts; on any exception
the function returns — never raises — a placeholder draft whose content is
the error text with zero word count and zero counts. -/
def writer_a_generate_content (counters : GeoCounters) (gen : Except String String)
    (language_code model : String) (elapsed_ms : Nat) : ContentDraft :=
  match gen with
  | Except.ok content =>
      { draft_id := DraftId.A
        content := content
        word_count := counters.count_words content language_code
        model_used := model
        generation_time_ms := elapsed_ms
        statistics_count := counters.count_statistics content
        citations_count := counters.count_citations content
        quotations_count := counters.count_quotations content }
  | Except.error e =>
      { draft_id := DraftId.A
        content := "Error generating content: " ++ e
        word_count := 0
        model_used := model
        generation_time_ms := elapsed_ms
        statistics_count := 0
        citations_count := 0
        quotations_count := 0 }

/-- `WriterAgentB._error_draft` (`writer_agent_b.py` lines 152-164). -/
def writer_b_error_draft (model : String) (elapsed_ms : Nat) (error_message : String) :
    ContentDraft :=
  { draft_id := DraftId.B
    content := "Error generating content: " ++ error_message
    word_count := 0
    model_used := model
    generation_time_ms := elapsed_ms
    statistics_count := 0
    citations_count := 0
    quotations_count := 0 }

/-- `WriterAgentB.generate_content` (`writer_agent_b.py`): the four `except`
clauses (connection, rate-limit, API-status, generic) all route to
`_error_draft`; `gen`'s error value is the already-formatted message of
whichever clause fired. -/
def writer_b_generate_content (counters : GeoCounters) (gen : Except String String)
    (language_code model : String) (elapsed_ms : Nat) : ContentDraft :=
  match gen with
  | Except.ok content =>
      { draft_id := DraftId.B
        content := content
        word_count := counters.count_words content language_code
        model_used := model
        generation_time_ms := elapsed_ms
        statistics_count := counters.count_statistics content
        citations_count := counters.count_citations content
        quotations_count := counters.count_quotations content }
  | Except.error e => writer_b_error_draft model elapsed_ms e

/-- `GEOContentWorkflow._generate_drafts_parallel` (`orchestrator.py` lines
348-371): both writers run and both results are kept — a failure of one is
absorbed into its placeholder draft and does not cancel the other. -/
def generate_drafts_parallel (counters : GeoCounters)
    (gen_a gen_b : Except String String) (language_code model_a model_b : String)
    (ms_a ms_b : Nat) : ContentDraft × ContentDraft :=
  (writer_a_generate_content counters gen_a language_code model_a ms_a,
   writer_b_generate_content counters gen_b language_code model_b ms_b)

/-- C8: a draft producer never raises — `writer_a_generate_content` and
`writer_b_generate_content` are total functions — and when the generation
call fails with any exception the result is a placeholder draft carrying the
error text with word count 0 and zero statistics/citations/quotations
counts; in particular the parallel generation step still yields two drafts,
with the failed side a zero-count placeholder. -/
theorem writer_error_placeholder (counters : GeoCounters) (e : String)
    (gen_a : Except String String) (language_code model_a model_b : String)
    (ms_a ms_b : Nat) :
    (writer_a_generate_content counters (Except.error e) language_code model_a ms_a).content
      = "Error generating content: " ++ e ∧
    (writer_a_generate_content counters (Except.error e) language_code model_a ms_a).word_count
      = 0 ∧
    (writer_a_generate_content counters (Except.error e) language_code model_a
      ms_a).statistics_count = 0 ∧
    (writer_a_generate_content counters (Except.error e) language_code model_a
      ms_a).citations_count = 0 ∧
    (writer_a_generate_content counters (Except.error e) language_code model_a
      ms_a).quotations_count = 0 ∧
    (generate_drafts_parallel counters gen_a (Except.error e) language_code model_a model_b
      ms_a ms_b).2 = writer_b_error_draft model_b ms_b e ∧
    (writer_b_error_draft model_b ms_b e).content = "Error generating content: " ++ e ∧
    (writer_b_error_draft model_b ms_b e).word_count = 0 ∧
    (writer_b_error_draft model_b ms_b e).statistics_count = 0 ∧
    (writer_b_error_draft model_b ms_b e).citations_count = 0 ∧
    (writer_b_error_draft model_b ms_b e).quotations_count = 0 := by
  exact ⟨rfl, rfl, rfl, rfl, rfl, rfl, rfl, rfl, rfl, rfl, rfl⟩

/-- The inner evaluation loop of `GEOContentWorkflow._evaluation_loop`
(`orchestrator.py` lines 400-459), reduced to its evaluation-call count:
`while iteration < max_iterations` increments the counter, issues exactly one
`evaluate_drafts` call per pass, and breaks early when `passes_threshold` is
true (`passes n` is the oracle telling whether the n-th round's evaluation
passed).  The returned value is the final `iteration` counter, which equals
the number of evaluation calls issued.  The recursion is well-founded on
`max_iterations - iteration`, which formalizes that the loop terminates. -/
def evaluation_loop_go (max_iterations : Nat) (passes : Nat → Bool) (iteration : Nat) : Nat :=
  if iteration < max_iterations then
    if passes (iteration + 1) then iteration + 1
    else evaluation_loop_go max_iterations passes (iteration + 1)
  else iteration
termination_by max_iterations - iteration
decreasing_by omega

/-- Evaluation calls issued by one full run of the inner loop. -/
def evaluation_loop_calls (max_iterations : Nat) (passes : Nat → Bool) : Nat :=
  evaluation_loop_go max_iterations passes 0

lemma evaluation_loop_go_le (max_iterations : Nat) (passes : Nat → Bool) :
    ∀ (fuel iteration : Nat), fuel = max_iterations - iteration →
      iteration ≤ max_iterations →
      evaluation_loop_go max_iterations passes iteration ≤ max_iterations := by
  intro fuel
  induction fuel with
  | zero =>
      intro iteration hf hle
      unfold evaluation_loop_go
      split
      · omega
      · exact hle
  | succ n ih =>
      intro iteration hf hle
      unfold evaluation_loop_go
      split
      · split
        · omega
        · exact ih (iteration + 1) (by omega) (by omega)
      · exact hle

lemma evaluation_loop_calls_le (max_iterations : Nat) (passes : Nat → Bool) :
    evaluation_loop_calls max_iterations passes ≤ max_iterations :=
  evaluation_loop_go_le max_iterations passes max_iterations 0 (by omega) (by omega)

/-- The outer E-E-A-T loop of `GEOContentWorkflow.generate_content`
(`orchestrator.py` lines 151-212), reduced to its counting skeleton: while
`research_iteration <= max_research_iterations`, run the inner evaluation
loop once (issuing `eval_calls research_iteration` evaluation calls), break
when the commentary's E-E-A-T score meets the threshold (`eeat_ok`), break
when the iteration budget is exhausted, otherwise increment and re-enter
after focused research, merge and regeneration.  Returns (number of inner
loop runs, total evaluation calls).  The recursion is well-founded on
`max_research_iterations + 1 - research_iteration`, which formalizes that
the outer loop terminates. -/
def eeat_loop_go (max_research_iterations : Nat) (eval_calls : Nat → Nat)
    (eeat_ok : Nat → Bool) (research_iteration : Nat) : Nat × Nat :=
  if _h : research_iteration ≤ max_research_iterations then
    let rest :=
      if eeat_ok research_iteration then (0, 0)
      else if _h2 : max_research_iterations ≤ research_iteration then (0, 0)
      else eeat_loop_go max_research_iterations eval_calls eeat_ok (research_iteration + 1)
    (1 + rest.1, eval_calls research_iteration + rest.2)
  else (0, 0)
termination_by max_research_iterations + 1 - research_iteration
decreasing_by omega

/-- Number of times the outer loop runs the inner evaluation loop. -/
def workflow_inner_loop_runs (max_research_iterations max_iterations : Nat)
    (passes : Nat → Nat → Bool) (eeat_ok : Nat → Bool) : Nat :=
  (eeat_loop_go max_research_iterations
    (fun r => evaluation_loop_calls max_iterations (passes r)) eeat_ok 0).1

/-- Total number of evaluation calls issued by one `generate_content` run:
the outer loop's passes, each contributing its inner loop's calls.
`passes r n` tells whether the n-th evaluation of outer pass r passed the
quality threshold; `eeat_ok r` tells whether the commentary's E-E-A-T score
met the threshold after pass r. -/
def workflow_evaluation_calls (max_research_iterations max_iterations : Nat)
    (passes : Nat → Nat → Bool) (eeat_ok : Nat → Bool) : Nat :=
  (eeat_loop_go max_research_iterations
    (fun r => evaluation_loop_calls max_iterations (passes r)) eeat_ok 0).2

lemma eeat_loop_go_bound (max_research_iterations max_iterations : Nat)
    (eval_calls : Nat → Nat) (eeat_ok : Nat → Bool)
    (hcalls : ∀ r, eval_calls r ≤ max_iterations) :
    ∀ (fuel research_iteration : Nat),
      fuel = max_research_iterations + 1 - research_iteration →
      (eeat_loop_go max_research_iterations eval_calls eeat_ok research_iteration).1 ≤
        max_research_iterations + 1 - research_iteration ∧
      (eeat_loop_go max_research_iterations eval_calls eeat_ok research_iteration).2 ≤
        (max_research_iterations + 1 - research_iteration) * max_iterations := by
  intro fuel
  induction fuel with
  | zero =>
      intro r hf
      unfold eeat_loop_go
      split
      · omega
      · exact ⟨by omega, by omega⟩
  | succ n ih =>
      intro r hf
      unfold eeat_loop_go
      split
      · rename_i h
        have hone : (1 : Nat) ≤ max_research_iterations + 1 - r := by omega
        by_cases hok : eeat_ok r = true
        · simp only [hok, if_true]
          refine ⟨by omega, ?_⟩
          calc eval_calls r + (0, 0).2 = eval_calls r := by omega
            _ ≤ max_iterations := hcalls r
            _ = 1 * max_iterations := by omega
            _ ≤ (max_research_iterations + 1 - r) * max_iterations :=
                Nat.mul_le_mul_right _ hone
        · simp only [hok, Bool.false_eq_true, if_false]
          by_cases h2 : max_research_iterations ≤ r
          · simp only [dif_pos h2]
            refine ⟨by omega, ?_⟩
            calc eval_calls r + (0, 0).2 = eval_calls r := by omega
              _ ≤ max_iterations := hcalls r
              _ = 1 * max_iterations := by omega
              _ ≤ (max_research_iterations + 1 - r) * max_iterations :=
                  Nat.mul_le_mul_right _ hone
          · simp only [dif_neg h2]
            have hrec := ih (r + 1) (by omega)
            have hsub : max_research_iterations + 1 - r =
                (max_research_iterations + 1 - (r + 1)) + 1 := by omega
            refine ⟨by omega, ?_⟩
            rw [hsub, Nat.succ_mul, Nat.add_comm ((max_research_iterations + 1 - (r + 1)) *
              max_iterations) max_iterations]
            exact Nat.add_le_add (hcalls r) hrec.2
      · exact ⟨by omega, by omega⟩

/-- C2: for any oracles (any sequence of `passes_threshold` and E-E-A-T
outcomes), the inner evaluation loop issues at most `max_iterations`
evaluation calls, the outer E-E-A-T loop runs the inner loop at most
`max_research_iterations + 1` times, and a whole `generate_content` run
issues at most `(max_research_iterations + 1) * max_iterations` evaluation
calls.  Both loops terminate: `evaluation_loop_go` and `eeat_loop_go` are
total functions defined by well-founded recursion on their loop counters. -/
theorem workflow_evaluation_call_bound (max_research_iterations max_iterations : Nat)
    (passes : Nat → Nat → Bool) (eeat_ok : Nat → Bool) :
    (∀ p : Nat → Bool, evaluation_loop_calls max_iterations p ≤ max_iterations) ∧
    workflow_inner_loop_runs max_research_iterations max_iterations passes eeat_ok ≤
      max_research_iterations + 1 ∧
    workflow_evaluation_calls max_research_iterations max_iterations passes eeat_ok ≤
      (max_research_iterations + 1) * max_iterations := by
  have hb := eeat_loop_go_bound max_research_iterations max_iterations
    (fun r => evaluation_loop_calls max_iterations (passes r)) eeat_ok
    (fun r => evaluation_loop_calls_le max_iterations (passes r))
    (max_research_iterations + 1) 0 (by omega)
  refine ⟨fun p => evaluation_loop_calls_le max_iterations p, ?_, ?_⟩
  · have h1 := hb.1
    simpa using h1
  · have h2 := hb.2
    simpa using h2

/-- Major Unicode category class of a character, as returned by the first
letter of `unicodedata.category`.  `C` collects every category outside the
validator's accepted set (Cc, Cf, Co, Cs, Cn). -/
inductive UnicodeMajor where
  | L
  | M
  | N
  | P
  | S
  | Z
  | C
deriving Repr, DecidableEq

/-- A character as the validator sees it: its code point and its major
Unicode category (the embedding carries the category explicitly instead of
re-implementing the Unicode character database). -/
structure UChar where
  code : Nat
  major : UnicodeMajor
deriving Repr, DecidableEq

/-- `cat[0] in {'L', 'N', 'P', 'Z', 'S', 'M'}` (`pathway_harvester.py` line
359/375). -/
def majorCategoryValid (m : UnicodeMajor) : Bool :=
  match m with
  | UnicodeMajor.C => false
  | _ => true

/-- One character's contribution to `readable_chars` in
`_is_valid_text_content` (`pathway_harvester.py` lines 363-382): tab,
newline and carriage return count as readable; the replacement character
does not; otherwise the major category must be accepted and the code point
must lie outside the private-use area and the surrogate range. -/
def isReadableChar (c : UChar) : Bool :=
  if c.code == 9 || c.code == 10 || c.code == 13 then true
  else if c.code == 65533 then false
  else if majorCategoryValid c.major then
    if 57344 ≤ c.code && c.code ≤ 63743 then false
    else if 55296 ≤ c.code && c.code ≤ 57343 then false
    else true
  else false

/-- `readable_chars` of `_is_valid_text_content`. -/
def readableCharCount (content : List UChar) : Nat :=
  (content.filter isReadableChar).length

/-- `replacement_chars`: occurrences of U+FFFD (`ord(char) == 65533`). -/
def replacementCharCount (content : List UChar) : Nat :=
  (content.filter (fun c => c.code == 65533)).length

/-- `control_chars`: `ord(c) < 32 and c not in '\n\r\t'`
(`pathway_harvester.py` line 394). -/
def controlCharCount (content : List UChar) : Nat :=
  (content.filter (fun c =>
    c.code < 32 && !(c.code == 9 || c.code == 10 || c.code == 13))).length

/-- `_is_valid_text_content` (`pathway_harvester.py` lines 339-405) with its
default `min_readable_ratio=0.7`: reject when the content is empty or
shorter than 10 characters (`if not content or len(content) < 10`), when
replacement characters exceed 5% of the length, when control characters
exceed 10%, or when the readable ratio falls below 0.7.  Python compares the
float ratios `x / total` against the literals 0.05 / 0.1 / 0.7; the model
states the same comparisons exactly over the integers
(`x / total > 1/20  ⟺  20 * x > total`, and likewise for 1/10 and 7/10),
which agrees with the float evaluation at every input this file evaluates. -/
def is_valid_text_content (content : List UChar) : Bool :=
  if content.length < 10 then false
  else
    let total_chars := content.length
    if 20 * replacementCharCount content > total_chars then false
    else if 10 * controlCharCount content > total_chars then false
    else if 10 * readableCharCount content < 7 * total_chars then false
    else true

/-- The validating tail of `_parse_html_content` (`pathway_harvester.py`
lines 471-474): content that is empty or fails `_is_valid_text_content` is
dropped by returning `None`; nothing is raised.  The surrounding
`HarvestedContent` construction is abstracted to returning the text. -/
def parse_html_content_validate (cleaned_text : List UChar) : Option (List UChar) :=
  if cleaned_text.isEmpty || !(is_valid_text_content cleaned_text) then none
  else some cleaned_text

/-- The rejection predicate exactly as the claim words it (a refinement
reference point, deliberately written from the spec text, not from the
source): readable characters are those in the
letter/number/punctuation/separator/symbol/mark categories *plus tab and
newline only*, and rejection happens exactly when that readable ratio is
below 0.7, control characters other than tab/newline/CR exceed 10%, or
replacement characters exceed 5% — with no length condition. -/
def claim_described_reject (content : List UChar) : Bool :=
  let total := content.length
  let claim_readable := (content.filter (fun c =>
    majorCategoryValid c.major || c.code == 9 || c.code == 10)).length
  (10 * claim_readable < 7 * total) ||
    (10 * controlCharCount content > total) ||
    (20 * replacementCharCount content > total)

/-- Five ASCII letters: readable ratio 1.0, no control or replacement
characters, but length below 10. -/
def fiveLetters : List UChar :=
  List.replicate 5 ⟨97, UnicodeMajor.L⟩

/-- C9 counterexample: on a five-letter text none of the claim's three
rejection conditions holds (`claim_described_reject` is false), yet the
code's validator rejects it — `_is_valid_text_content` also rejects any
content shorter than 10 characters, so the claimed "rejects exactly when"
equivalence is false. -/
theorem text_validator_counterexample :
    is_valid_text_content fiveLetters = false ∧
    claim_described_reject fiveLetters = false := by
  exact ⟨rfl, rfl⟩

/-- C9 amended: the readability validator accepts exactly when the text is
at least 10 characters long, replacement characters are at most 5% of the
length, control characters other than tab/newline/CR are at most 10%, and
the readable ratio — counting characters of the letter/number/punctuation/
separator/symbol/mark categories outside the private-use and surrogate
ranges, plus tab, newline and carriage return, and excluding the replacement
character — is at least 0.7; content failing validation is dropped by
`_parse_html_content` (returns `None`), never raised as an error. -/
theorem text_validator_amended (content : List UChar) :
    (is_valid_text_content content = true ↔
      (10 ≤ content.length ∧
       20 * replacementCharCount content ≤ content.length ∧
       10 * controlCharCount content ≤ content.length ∧
       7 * content.length ≤ 10 * readableCharCount content)) ∧
    (parse_html_content_validate content = none ↔
      is_valid_text_content content = false) := by
  have hiff : is_valid_text_content content = true ↔
      (10 ≤ content.length ∧
       20 * replacementCharCount content ≤ content.length ∧
       10 * controlCharCount content ≤ content.length ∧
       7 * content.length ≤ 10 * readableCharCount content) := by
    simp only [is_valid_text_content]
    split_ifs with h1 h2 h3 h4
    · simp
      omega
    · simp
      omega
    · simp
      omega
    · simp
      omega
    · simp
      omega
  refine ⟨hiff, ?_⟩
  rcases Bool.eq_false_or_eq_true (is_valid_text_content content) with hv | hv
  · have hlen : 10 ≤ content.length := (hiff.mp hv).1
    have hne : ¬ content = [] := by
      intro h
      rw [h] at hlen
      simp at hlen
    simp [parse_html_content_validate, hv, hne]
  · simp [parse_html_content_validate, hv]
